import Mathlib

/-!
Verification development for the campus-Me document-generation service.

The definitions below are shallow embeddings of the Python modules:
* `src/src/optimization/optimization_manager.py` (resource health monitor),
* `src/utils/document_preview.py` (artifact registry),
* `src/app_optimized.py` (generation coordinator),
* `src/src/ai_engine/file_manager.py` (temporary-file lifecycle manager).

Python dictionaries are embedded as association lists over `String` keys
(first-occurrence lookup, in-place value replacement, append on fresh key —
matching CPython dict semantics for duplicate-free key sets).  Memory
percentages are rationals, wall-clock instants are integers (seconds).
-/

/-- Python `dict.get`: value of the first entry with the given key. -/
def lookup' {α : Type} : List (String × α) → String → Option α
  | [], _ => none
  | (k, v) :: rest, key => if key = k then some v else lookup' rest key

/-- Python `d[key] = v`: replace the value at an existing key in place,
otherwise append the new binding at the end (dict insertion order). -/
def dict_set {α : Type} : List (String × α) → String → α → List (String × α)
  | [], key, v => [(key, v)]
  | (k, w) :: rest, key, v =>
      if k = key then (key, v) :: rest else (k, w) :: dict_set rest key v

/-- Python `del d[key]`: drop the first entry with the given key. -/
def dict_remove {α : Type} : List (String × α) → String → List (String × α)
  | [], _ => []
  | (k, v) :: rest, key => if k = key then rest else (k, v) :: dict_remove rest key

/-! ## Resource Health Monitor (`optimization_manager.py`) -/

/-- Health tier reported by `OptimizationManager.check_memory_health`. -/
inductive Tier where
  | HEALTHY
  | WARNING
  | CRITICAL
deriving DecidableEq, Repr

/-- Mutable fields of the `OptimizationManager` instance
(`__init__`, lines 19-24 of `optimization_manager.py`).  The caches are
embedded as association lists of opaque string entries. -/
structure OptimizationManager where
  memory_threshold : ℚ
  model_cache : List (String × String)
  computation_cache : List (String × String)
  memory_warnings : List String
deriving DecidableEq, Repr

/-- The module-level singleton `optimization_manager = OptimizationManager()`. -/
def optimization_manager : OptimizationManager :=
  { memory_threshold := 0.80
    model_cache := []
    computation_cache := []
    memory_warnings := [] }

/-- The `health` dict built by `check_memory_health` (`status`, `ram_percent`,
`available_gb`, `warnings`).  `available_gb` is carried opaquely. -/
structure Health where
  status : Tier
  ram_percent : ℚ
  warnings : List String
deriving DecidableEq, Repr

/-- Embedding of `OptimizationManager._aggressive_cleanup`: `gc.collect()` (no model state)
and `self.computation_cache.clear()`. -/
def aggressive_cleanup (mgr : OptimizationManager) : OptimizationManager :=
  { mgr with computation_cache := [] }

/-- Embedding of `OptimizationManager._emergency_cleanup`: `_aggressive_cleanup` plus
repeated `gc.collect()` calls (which do not touch model state). -/
def emergency_cleanup (mgr : OptimizationManager) : OptimizationManager :=
  aggressive_cleanup mgr

/-- Embedding of `OptimizationManager.check_memory_health` (lines 45-66): classify the
current memory percentage and run the cleanup side effects.  The two `if`
statements run in sequence, so a reading above 90 first sets `WARNING` and
then overwrites it with `CRITICAL`.  The interpolated percentage inside the
warning strings is elided. -/
def check_memory_health (mgr : OptimizationManager) (ram_percent : ℚ) :
    OptimizationManager × Health :=
  let health : Health := { status := Tier.HEALTHY, ram_percent := ram_percent, warnings := [] }
  let step1 : OptimizationManager × Health :=
    if 80 < ram_percent then
      (aggressive_cleanup mgr,
       { health with
           status := Tier.WARNING
           warnings := health.warnings ++ ["High memory usage"] })
    else (mgr, health)
  let step2 : OptimizationManager × Health :=
    if 90 < ram_percent then
      (emergency_cleanup step1.1,
       { step1.2 with
           status := Tier.CRITICAL
           warnings := step1.2.warnings ++ ["CRITICAL memory usage"] })
    else step1
  step2

/-! ## Artifact Registry (`utils/document_preview.py`) -/

/-- One entry of `DocumentPreviewManager.documents_registry`
(`register_document`, lines 56-63). -/
structure DocInfo where
  title : String
  file_paths : List (String × String)
  content_preview : String
  created_at : String
  metadata : List (String × String)
  access_count : Nat
deriving DecidableEq, Repr

/-- Embedding of `DocumentPreviewManager.documents_registry`: dict of doc id to record. -/
abbrev Registry := List (String × DocInfo)

/-- Embedding of `DocumentPreviewManager.register_document` (lines 32-66).  The id comes
from `uuid.uuid4()` outside the model, so it is a parameter; the timestamp
string likewise.  A fresh record always starts with `access_count = 0`. -/
def register_document (reg : Registry) (doc_id title : String)
    (file_paths : List (String × String)) (content_preview : String)
    (metadata : List (String × String)) (created_at : String) : Registry :=
  dict_set reg doc_id
    { title := title
      file_paths := file_paths
      content_preview := content_preview
      created_at := created_at
      metadata := metadata
      access_count := 0 }

/-- The increment `self.documents_registry[doc_id]["access_count"] += 1`
applied to the first entry with the given id. -/
def bump_access : Registry → String → Registry
  | [], _ => []
  | (k, info) :: rest, doc_id =>
      if k = doc_id then (k, { info with access_count := info.access_count + 1 }) :: rest
      else (k, info) :: bump_access rest doc_id

/-- Embedding of `DocumentPreviewManager.get_document_info` (lines 68-73): on a known id,
increment its access count and return the updated record; otherwise `None`. -/
def get_document_info (reg : Registry) (doc_id : String) : Registry × Option DocInfo :=
  match lookup' reg doc_id with
  | some _ =>
      let reg' := bump_access reg doc_id
      (reg', lookup' reg' doc_id)
  | none => (reg, none)

/-- Python `str.upper()`, on the ASCII format names this system uses:
uppercase every character. -/
def pyUpper (s : String) : String := ⟨s.data.map Char.toUpper⟩

/-- Embedding of `DocumentPreviewManager.get_download_link` (lines 75-89): fetch the record
via `get_document_info`, then look up `format_type.upper()` in `file_paths`. -/
def get_download_link (reg : Registry) (doc_id format_type : String) :
    Registry × Option String :=
  let step := get_document_info reg doc_id
  match step.2 with
  | some info => (step.1, lookup' info.file_paths (pyUpper format_type))
  | none => (step.1, none)

/-- Embedding of `get_document_info` iterated a number of times on the same id
(sequential calls of `get`). -/
def get_n (doc_id : String) : Nat → Registry → Registry
  | 0, reg => reg
  | n + 1, reg => get_n doc_id n (get_document_info reg doc_id).1

/-! The unsynchronized increment, split into its two shared-memory accesses.
`DocumentPreviewManager` holds no lock, so the CPython line
`self.documents_registry[doc_id]["access_count"] += 1` is a read of the
counter followed by a store of `read value + 1`; two threads running
`get_document_info` concurrently may interleave these accesses. -/

/-- Program counter of one thread executing the increment. -/
inductive IncPC where
  | toRead
  | toWrite (v : Nat)
  | done
deriving DecidableEq, Repr

/-- Store the read value plus one back into the counter (the write half of
`+= 1`), on the first entry with the given id. -/
def set_access : Registry → String → Nat → Registry
  | [], _, _ => []
  | (k, info) :: rest, doc_id, v =>
      if k = doc_id then (k, { info with access_count := v }) :: rest
      else (k, info) :: set_access rest doc_id v

/-- One atomic shared-memory access of a thread running the increment. -/
def inc_step (reg : Registry) (doc_id : String) : IncPC → Registry × IncPC
  | IncPC.toRead =>
      match lookup' reg doc_id with
      | some info => (reg, IncPC.toWrite info.access_count)
      | none => (reg, IncPC.done)
  | IncPC.toWrite v => (set_access reg doc_id (v + 1), IncPC.done)
  | IncPC.done => (reg, IncPC.done)

/-- Run a schedule (a list of thread indices) over a pool of threads that all
increment the access count of the same id. -/
def run_sched (doc_id : String) : List Nat → Registry → List IncPC → Registry × List IncPC
  | [], reg, threads => (reg, threads)
  | i :: rest, reg, threads =>
      match threads.get? i with
      | some th =>
          let step := inc_step reg doc_id th
          run_sched doc_id rest step.1 (threads.set i step.2)
      | none => run_sched doc_id rest reg threads

/-! ## Generation Coordinator (`app_optimized.py`) -/

/-- The keys of the `format_generators` dispatch dict (lines 343-349). -/
def format_generators : List String := ["pdf", "docx", "md", "html", "latex"]

/-- The display name hardcoded by each per-format wrapper
(`generate_pdf_file`, `generate_word_file`, ...). -/
def fmt_display_name : String → String
  | "pdf" => "PDF"
  | "docx" => "Word"
  | "md" => "Markdown"
  | "html" => "HTML"
  | "latex" => "LaTeX"
  | s => s

/-- The triple each wrapper returns: `(fmt_name, path-or-None, error-or-None)`. -/
structure RenderOutcome where
  fmt_name : String
  path : Option String
  error : Option String
deriving DecidableEq, Repr

/-- Embedding of `generate_pdf_file` / `generate_word_file` / ... (lines 191-254), merged
over the dispatched format tag.  The renderer collaborator (generator plus
`FileHandler.save_file`) either produces a saved-file path or raises, and the
wrapper catches every exception into an error outcome whose message embeds
`str(e)[:50]`. -/
def generate_format_file (render : String → Except String String) (fmt : String) :
    RenderOutcome :=
  match render fmt with
  | Except.ok p => { fmt_name := fmt_display_name fmt, path := some p, error := none }
  | Except.error e =>
      { fmt_name := fmt_display_name fmt
        path := none
        error := some (fmt_display_name fmt ++ " generation failed: " ++ e.take 50) }

/-- Python `f"✗ {error}"` where `error` may be `None`. -/
def opt_str : Option String → String
  | some s => s
  | none => "None"

/-- The fan-in collection loop (lines 361-367): walk the submitted tasks in
submission order, adding successful paths to the `outputs` dict and one
status line per task.  `if path:` is CPython truthiness: `None` and the empty
string both take the failure branch. -/
def collect_loop : List (String × RenderOutcome) → List (String × String) → List String →
    List (String × String) × List String
  | [], outputs, status_updates => (outputs, status_updates)
  | (_, o) :: rest, outputs, status_updates =>
      match o.path with
      | some p =>
          if p = "" then
            collect_loop rest outputs (status_updates ++ ["✗ " ++ opt_str o.error])
          else
            collect_loop rest (dict_set outputs o.fmt_name p)
              (status_updates ++ ["✓ " ++ o.fmt_name ++ " generated successfully"])
      | none => collect_loop rest outputs (status_updates ++ ["✗ " ++ opt_str o.error])

/-- The success entry a task contributes to the `outputs` dict, if any. -/
def succ_entry (t : String × RenderOutcome) : Option (String × String) :=
  match t.2.path with
  | some p => if p = "" then none else some (t.2.fmt_name, p)
  | none => none

/-- The status line a task contributes. -/
def status_of (t : String × RenderOutcome) : String :=
  match t.2.path with
  | some p =>
      if p = "" then "✗ " ++ opt_str t.2.error
      else "✓ " ++ t.2.fmt_name ++ " generated successfully"
  | none => "✗ " ++ opt_str t.2.error

/-- Observable result of `generate_document_optimized`: whether the request
was refused at the CRITICAL tier, the effective optional-feature flags, the
per-task outcomes in submission order, the `outputs` dict, the status lines,
and the `file_paths` mapping handed to `register_document` (if reached). -/
structure GenOutput where
  critical : Bool
  include_tables : Bool
  include_charts : Bool
  results : List (String × RenderOutcome)
  outputs : List (String × String)
  status_updates : List String
  registered : Option (List (String × String))
deriving DecidableEq, Repr

/-- The post-admission body of `generate_document_optimized` (lines 338-389):
submit one task per requested format that has a dispatch entry, collect in
submission order, and register the successful outputs.  Content generation,
quality metrics and detection are external collaborators without influence on
the orchestration result. -/
def run_generation (include_tables include_charts : Bool) (formats : List String)
    (render : String → Except String String) : GenOutput :=
  let format_tasks :=
    (formats.filter (fun f => decide (f ∈ format_generators))).map
      (fun fmt => (fmt, generate_format_file render fmt))
  let collected := collect_loop format_tasks [] []
  { critical := false
    include_tables := include_tables
    include_charts := include_charts
    results := format_tasks
    outputs := collected.1
    status_updates := collected.2
    registered := some collected.1 }

/-- Embedding of `generate_document_optimized` (lines 256-425): admission control against
the health monitor, graceful degradation at WARNING, refusal at CRITICAL
(the early return with empty dicts), otherwise the fan-out body.  The global
manager's own mutation by the health probe is orthogonal to the returned
value and not threaded through. -/
def generate_document_optimized (mgr : OptimizationManager) (ram_percent : ℚ)
    (include_tables include_charts : Bool) (formats : List String)
    (render : String → Except String String) : GenOutput :=
  let health := (check_memory_health mgr ram_percent).2
  if health.status = Tier.WARNING then
    run_generation false false formats render
  else if health.status = Tier.CRITICAL then
    { critical := true
      include_tables := include_tables
      include_charts := include_charts
      results := []
      outputs := []
      status_updates := []
      registered := none }
  else
    run_generation include_tables include_charts formats render

/-! ## Lifecycle Manager (`src/ai_engine/file_manager.py`) -/

/-- One entry of `FileManager.tracked_files` (`upload_file`, lines 82-91). -/
structure FileInfo where
  source : String
  destination : String
  original_name : String
  file_size : Nat
  upload_time : Int
  file_type : String
  status : String
  processed_time : Option Int
  delete_at : Option Int
deriving DecidableEq, Repr

/-- State owned by a `FileManager`: the tracking dict plus the set of paths
currently existing under the scratch directory. -/
structure FMState where
  tracked_files : List (String × FileInfo)
  disk : List String
deriving DecidableEq, Repr

/-- Whether the calling thread already holds `self.lock`
(a non-reentrant `threading.Lock`). -/
inductive LockState where
  | free
  | heldBySelf
deriving DecidableEq, Repr

/-- Embedding of `FileManager.upload_file` (lines 50-98).  The existence check and the
`stat` size are inputs (the OS view of the source file); the generated id and
destination path are parameters (`_generate_file_id` hashes wall-clock time).
The oversize message's interpolated size is elided.  On success the source
bytes are copied to the destination and the file is tracked with status
`"uploaded"`. -/
def upload_file (s : FMState) (source_exists : Bool) (source_path original_filename : String)
    (file_size : Nat) (file_id dest_path file_type : String) (now : Int) :
    (Bool × String) × FMState :=
  if source_exists = false then
    ((false, "File not found: " ++ source_path), s)
  else if 50 * 1024 * 1024 < file_size then
    ((false, "File too large"), s)
  else
    ((true, file_id),
     { tracked_files :=
         dict_set s.tracked_files file_id
           { source := source_path
             destination := dest_path
             original_name := if original_filename = "" then source_path else original_filename
             file_size := file_size
             upload_time := now
             file_type := file_type
             status := "uploaded"
             processed_time := none
             delete_at := none }
       disk := dest_path :: s.disk })

/-- Body of `FileManager._delete_file_internal` (lines 216-233), also the body
of `delete_file` once its lock is taken: remove the physical bytes if present
and drop the tracking entry. -/
def delete_file_internal (s : FMState) (file_id : String) : Bool × FMState :=
  match lookup' s.tracked_files file_id with
  | some info =>
      (true,
       { tracked_files := dict_remove s.tracked_files file_id
         disk := s.disk.filter (fun p => decide (p ≠ info.destination)) })
  | none => (false, s)

/-- Embedding of `FileManager.delete_file` (lines 152-180): acquire `self.lock`, then run
the deletion body.  Acquiring the non-reentrant lock while this thread already
holds it blocks forever, modelled as `none`. -/
def delete_file (lock : LockState) (s : FMState) (file_id : String) :
    Option (Bool × FMState) :=
  match lock with
  | LockState.heldBySelf => none
  | LockState.free => some (delete_file_internal s file_id)

/-- Embedding of `FileManager.mark_processed` (lines 119-150): under `self.lock`, stamp the
file processed, then either delete immediately (`delete_after <= 0`) — which
calls `delete_file` while `self.lock` is still held — or record the deletion
deadline. -/
def mark_processed (lock : LockState) (s : FMState) (file_id : String)
    (delete_after : Int) (now : Int) : Option (Bool × FMState) :=
  match lock with
  | LockState.heldBySelf => none
  | LockState.free =>
      match lookup' s.tracked_files file_id with
      | some info =>
          let s1 : FMState :=
            { s with
                tracked_files :=
                  dict_set s.tracked_files file_id
                    { info with status := "processed", processed_time := some now } }
          if delete_after ≤ 0 then
            delete_file LockState.heldBySelf s1 file_id
          else
            some (true,
              { s1 with
                  tracked_files :=
                    dict_set s1.tracked_files file_id
                      { info with
                          status := "processed"
                          processed_time := some now
                          delete_at := some (now + delete_after) } })
      | none => some (false, s)

/-- The `expired_files` list built by `cleanup_expired_files` (lines 193-204):
per tracked file, the id is appended once if the age bound is exceeded and
once more if a scheduled deletion deadline has passed. -/
def expired_list (max_age now : Int) : List (String × FileInfo) → List String
  | [] => []
  | (file_id, info) :: rest =>
      ((if max_age < now - info.upload_time then [file_id] else []) ++
        (match info.delete_at with
         | some d => if d ≤ now then [file_id] else []
         | none => [])) ++ expired_list max_age now rest

/-- The deletion loop of `cleanup_expired_files` (lines 207-209): run
`_delete_file_internal` on each collected id, counting the ones that were
still tracked. -/
def delete_expired : List String → Nat → FMState → Nat × FMState
  | [], cnt, s => (cnt, s)
  | file_id :: rest, cnt, s =>
      let step := delete_file_internal s file_id
      delete_expired rest (if step.1 then cnt + 1 else cnt) step.2

/-- Embedding of `FileManager.cleanup_expired_files` (lines 182-214): one sweep at time
`now` for a manager whose `max_age` is the given number of seconds. -/
def cleanup_expired_files (max_age now : Int) (s : FMState) : Nat × FMState :=
  delete_expired (expired_list max_age now s.tracked_files) 0 s

/-- Embedding of `FileManager.cleanup_all` (lines 235-252): delete every tracked file
regardless of TTL. -/
def cleanup_all (s : FMState) : Nat × FMState :=
  delete_expired (s.tracked_files.map Prod.fst) 0 s

/-! ## Association-list lemmas -/

theorem lookup'_dict_set_self {α : Type} (d : List (String × α)) (k : String) (v : α) :
    lookup' (dict_set d k v) k = some v := by
  induction d with
  | nil => simp [dict_set, lookup']
  | cons hd tl ih =>
      obtain ⟨k0, v0⟩ := hd
      by_cases h : k0 = k
      · simp [dict_set, lookup', h]
      · simp [dict_set, lookup', h, Ne.symm h, ih]

theorem lookup'_dict_set_ne {α : Type} (d : List (String × α)) (j k : String) (v : α)
    (h : k ≠ j) : lookup' (dict_set d j v) k = lookup' d k := by
  induction d with
  | nil => simp [dict_set, lookup', h]
  | cons hd tl ih =>
      obtain ⟨k0, v0⟩ := hd
      by_cases h0 : k0 = j
      · subst h0
        simp [dict_set, lookup', h]
      · simp only [dict_set, if_neg h0, lookup']
        by_cases hk : k = k0 <;> simp [hk, ih]

theorem dict_set_of_lookup_none {α : Type} (d : List (String × α)) (k : String) (v : α)
    (h : lookup' d k = none) : dict_set d k v = d ++ [(k, v)] := by
  induction d with
  | nil => simp [dict_set]
  | cons hd tl ih =>
      obtain ⟨k0, v0⟩ := hd
      simp only [lookup'] at h
      by_cases h0 : k = k0
      · simp [h0] at h
      · simp [h0] at h
        have h0' : ¬ k0 = k := fun hk => h0 hk.symm
        simp [dict_set, h0', ih h]

theorem lookup'_append_of_none {α : Type} (a b : List (String × α)) (k : String)
    (h : lookup' a k = none) : lookup' (a ++ b) k = lookup' b k := by
  induction a with
  | nil => simp
  | cons hd tl ih =>
      obtain ⟨k0, v0⟩ := hd
      simp only [lookup'] at h ⊢
      by_cases h0 : k = k0
      · simp [h0] at h
      · simp [h0] at h ⊢
        exact ih h

theorem lookup'_eq_none_iff {α : Type} (d : List (String × α)) (k : String) :
    lookup' d k = none ↔ k ∉ d.map Prod.fst := by
  induction d with
  | nil => simp [lookup']
  | cons hd tl ih =>
      obtain ⟨k0, v0⟩ := hd
      simp only [lookup', List.map_cons, List.mem_cons]
      by_cases h0 : k = k0 <;> simp [h0, ih]

theorem mem_of_lookup'_some {α : Type} {d : List (String × α)} {k : String} {v : α}
    (h : lookup' d k = some v) : (k, v) ∈ d := by
  induction d with
  | nil => simp [lookup'] at h
  | cons hd tl ih =>
      obtain ⟨k0, v0⟩ := hd
      simp only [lookup'] at h
      by_cases h0 : k = k0
      · subst h0
        simp at h
        simp [h]
      · simp [h0] at h
        simp [ih h]

theorem lookup'_of_mem_nodup {α : Type} {d : List (String × α)} {k : String} {v : α}
    (hnd : (d.map Prod.fst).Nodup) (hm : (k, v) ∈ d) : lookup' d k = some v := by
  induction d with
  | nil => simp at hm
  | cons hd tl ih =>
      obtain ⟨k0, v0⟩ := hd
      simp only [List.map_cons, List.nodup_cons] at hnd
      rcases List.mem_cons.mp hm with h | h
      · obtain ⟨hk, hv⟩ := Prod.mk.injEq .. ▸ h
        simp [lookup', hk.symm, hv]
      · have hk : k ≠ k0 := by
          rintro rfl
          exact hnd.1 (List.mem_map.mpr ⟨(k, v), h, rfl⟩)
        simp [lookup', hk, ih hnd.2 h]

theorem lookup'_dict_remove_ne {α : Type} (d : List (String × α)) (j k : String)
    (h : k ≠ j) : lookup' (dict_remove d j) k = lookup' d k := by
  induction d with
  | nil => simp [dict_remove]
  | cons hd tl ih =>
      obtain ⟨k0, v0⟩ := hd
      by_cases h0 : k0 = j
      · subst h0
        simp [dict_remove, lookup', h]
      · simp only [dict_remove, if_neg h0, lookup']
        by_cases hk : k = k0 <;> simp [hk, ih]

theorem lookup'_dict_remove_self {α : Type} (d : List (String × α)) (k : String)
    (hnd : (d.map Prod.fst).Nodup) : lookup' (dict_remove d k) k = none := by
  induction d with
  | nil => simp [dict_remove, lookup']
  | cons hd tl ih =>
      obtain ⟨k0, v0⟩ := hd
      simp only [List.map_cons, List.nodup_cons] at hnd
      by_cases h0 : k0 = k
      · subst h0
        simp only [dict_remove, if_pos rfl]
        exact (lookup'_eq_none_iff tl k0).mpr hnd.1
      · have h0' : ¬ k = k0 := fun h => h0 h.symm
        simp [dict_remove, h0, lookup', h0', ih hnd.2]

theorem keys_dict_remove_sublist {α : Type} (d : List (String × α)) (k : String) :
    ((dict_remove d k).map Prod.fst).Sublist (d.map Prod.fst) := by
  induction d with
  | nil => simp [dict_remove]
  | cons hd tl ih =>
      obtain ⟨k0, v0⟩ := hd
      by_cases h0 : k0 = k
      · simp only [dict_remove, if_pos h0, List.map_cons]
        exact List.Sublist.cons k0 (List.Sublist.refl _)
      · simp only [dict_remove, if_neg h0, List.map_cons]
        exact List.Sublist.cons₂ k0 ih

theorem nodup_keys_dict_remove {α : Type} (d : List (String × α)) (k : String)
    (hnd : (d.map Prod.fst).Nodup) : ((dict_remove d k).map Prod.fst).Nodup :=
  (keys_dict_remove_sublist d k).nodup hnd

theorem lookup'_none_dict_remove {α : Type} (d : List (String × α)) (j k : String)
    (h : lookup' d k = none) : lookup' (dict_remove d j) k = none := by
  rw [lookup'_eq_none_iff] at h ⊢
  exact fun hm => h ((keys_dict_remove_sublist d j).mem hm)

/-! ## Resource Health Monitor theorems (C4, C7) -/

theorem check_status_eq (mgr : OptimizationManager) (p : ℚ) :
    (check_memory_health mgr p).2.status =
      (if 90 < p then Tier.CRITICAL else if 80 < p then Tier.WARNING else Tier.HEALTHY) := by
  unfold check_memory_health
  by_cases h1 : 80 < p <;> by_cases h2 : 90 < p <;> simp [h1, h2]

theorem check_mgr_eq (mgr : OptimizationManager) (p : ℚ) :
    (check_memory_health mgr p).1 =
      (if 80 < p then { mgr with computation_cache := [] } else mgr) := by
  unfold check_memory_health
  by_cases h1 : 80 < p
  · by_cases h2 : 90 < p <;> simp [h1, h2, aggressive_cleanup, emergency_cleanup]
  · have h2 : ¬ 90 < p := fun h => h1 (lt_trans (by norm_num) h)
    simp [h1, h2]

/-- Claim C4 counterexample: at a memory reading of exactly 80 percent the
code classifies the tier as HEALTHY (the code uses a strict `> 80`
comparison), while the claim calls every reading with `p < 80` false HEALTHY
and `80 <= p <= 90` WARNING. -/
theorem check_memory_health_boundary_80_cex :
    (check_memory_health optimization_manager 80).2.status = Tier.HEALTHY ∧
      ¬ ((80 : ℚ) < 80) := by
  constructor
  · decide
  · decide

/-- Claim C4 (amended): the health check classifies the tier as HEALTHY
exactly when the memory percentage satisfies `p <= 80`, as WARNING exactly
when `80 < p <= 90`, and as CRITICAL exactly when `p > 90`. -/
theorem check_memory_health_tier_thresholds (mgr : OptimizationManager) (p : ℚ) :
    ((check_memory_health mgr p).2.status = Tier.HEALTHY ↔ p ≤ 80) ∧
    ((check_memory_health mgr p).2.status = Tier.WARNING ↔ 80 < p ∧ p ≤ 90) ∧
    ((check_memory_health mgr p).2.status = Tier.CRITICAL ↔ 90 < p) := by
  simp only [check_status_eq]
  by_cases h2 : 90 < p
  · have h1 : 80 < p := lt_of_le_of_lt (by norm_num) h2
    refine ⟨?_, ?_, ?_⟩ <;> simp [h1, h2] <;> try linarith
  · by_cases h1 : 80 < p
    · refine ⟨?_, ?_, ?_⟩ <;> simp [h1, h2] <;> try linarith
    · refine ⟨?_, ?_, ?_⟩ <;> simp [h1, h2] <;> try linarith

/-- Claim C7 counterexample: a health query at 85 percent memory clears the
manager's `computation_cache` (via `_aggressive_cleanup`), so the query is
not free of side effects on the manager's fields. -/
theorem check_memory_health_clears_cache_cex :
    (check_memory_health
        { memory_threshold := 0.80
          model_cache := []
          computation_cache := [("key", "value")]
          memory_warnings := [] } 85).1.computation_cache ≠ [("key", "value")] := by
  decide

/-- Claim C7 (amended): `check_memory_health` never touches `model_cache`,
`memory_warnings` or `memory_threshold`; the whole manager is unchanged when
the reading is at most 80 percent, while any reading above 80 percent clears
`computation_cache`. -/
theorem check_memory_health_frame (mgr : OptimizationManager) (p : ℚ) :
    ((check_memory_health mgr p).1.memory_threshold = mgr.memory_threshold) ∧
    ((check_memory_health mgr p).1.model_cache = mgr.model_cache) ∧
    ((check_memory_health mgr p).1.memory_warnings = mgr.memory_warnings) ∧
    (p ≤ 80 → (check_memory_health mgr p).1 = mgr) ∧
    (80 < p → (check_memory_health mgr p).1.computation_cache = []) := by
  simp only [check_mgr_eq]
  by_cases h1 : 80 < p
  · refine ⟨?_, ?_, ?_, ?_, ?_⟩ <;> simp [h1] <;>
      exact fun h => absurd h1 (not_lt.mpr h)
  · refine ⟨?_, ?_, ?_, ?_, ?_⟩ <;> simp [h1]

/-- Claim C7 witness: the amended frame property evaluated at the module
singleton and a concrete 85 percent reading. -/
theorem check_memory_health_frame_witness :
    ((check_memory_health optimization_manager 85).1.memory_threshold =
        optimization_manager.memory_threshold) ∧
    ((check_memory_health optimization_manager 85).1.model_cache =
        optimization_manager.model_cache) ∧
    ((check_memory_health optimization_manager 85).1.memory_warnings =
        optimization_manager.memory_warnings) ∧
    ((85 : ℚ) ≤ 80 → (check_memory_health optimization_manager 85).1 = optimization_manager) ∧
    ((80 : ℚ) < 85 → (check_memory_health optimization_manager 85).1.computation_cache = []) :=
  check_memory_health_frame optimization_manager 85

/-! ## Artifact Registry theorems (C5, C8) -/

theorem lookup'_bump_access_self (reg : Registry) (doc_id : String) (info : DocInfo)
    (h : lookup' reg doc_id = some info) :
    lookup' (bump_access reg doc_id) doc_id =
      some { info with access_count := info.access_count + 1 } := by
  induction reg with
  | nil => simp [lookup'] at h
  | cons hd tl ih =>
      obtain ⟨k0, v0⟩ := hd
      simp only [lookup'] at h
      by_cases h0 : doc_id = k0
      · subst h0
        simp at h
        simp [bump_access, lookup', h]
      · have h0' : ¬ k0 = doc_id := fun hk => h0 hk.symm
        simp [h0] at h
        simp [bump_access, h0', lookup', h0, ih h]

theorem lookup'_bump_access_ne (reg : Registry) (doc_id k : String) (h : k ≠ doc_id) :
    lookup' (bump_access reg doc_id) k = lookup' reg k := by
  induction reg with
  | nil => simp [bump_access]
  | cons hd tl ih =>
      obtain ⟨k0, v0⟩ := hd
      by_cases h0 : k0 = doc_id
      · subst h0
        simp [bump_access, lookup', h]
      · simp only [bump_access, if_neg h0, lookup']
        by_cases hk : k = k0 <;> simp [hk, ih]

theorem get_document_info_known (reg : Registry) (doc_id : String) (info : DocInfo)
    (h : lookup' reg doc_id = some info) :
    get_document_info reg doc_id =
      (bump_access reg doc_id, some { info with access_count := info.access_count + 1 }) := by
  unfold get_document_info
  rw [h]
  simp [lookup'_bump_access_self reg doc_id info h]

theorem get_document_info_unknown (reg : Registry) (doc_id : String)
    (h : lookup' reg doc_id = none) : get_document_info reg doc_id = (reg, none) := by
  unfold get_document_info
  rw [h]

theorem get_document_info_access_mono (reg : Registry) (i j : String) (c : Nat)
    (h : (lookup' reg i).map DocInfo.access_count = some c) :
    ∃ c', (lookup' (get_document_info reg j).1 i).map DocInfo.access_count = some c' ∧
      c ≤ c' := by
  cases hj : lookup' reg j with
  | none =>
      rw [get_document_info_unknown reg j hj]
      exact ⟨c, h, le_refl c⟩
  | some info =>
      rw [get_document_info_known reg j info hj]
      by_cases hij : i = j
      · subst hij
        rw [hj] at h
        simp at h
        refine ⟨c + 1, ?_, Nat.le_succ c⟩
        rw [lookup'_bump_access_self reg i info hj]
        simp [h]
      · rw [lookup'_bump_access_ne reg j i hij]
        exact ⟨c, h, le_refl c⟩

theorem get_n_access (doc_id : String) (T : Nat) :
    ∀ (reg : Registry) (info : DocInfo), lookup' reg doc_id = some info →
      (lookup' (get_n doc_id T reg) doc_id).map DocInfo.access_count =
        some (info.access_count + T) := by
  induction T with
  | zero =>
      intro reg info h
      simp [get_n, h]
  | succ n ih =>
      intro reg info h
      have hstep : lookup' (get_document_info reg doc_id).1 doc_id =
          some { info with access_count := info.access_count + 1 } := by
        rw [get_document_info_known reg doc_id info h]
        exact lookup'_bump_access_self reg doc_id info h
      rw [get_n, ih _ _ hstep]
      congr 1
      simp
      omega

/-- Claim C5 counterexample: two concurrent `get_document_info` callers on a
freshly registered document, interleaved read-read-write-write, both run to
completion yet leave `access_count = 1`, not `2` — the unsynchronized
`+= 1` loses an update. -/
theorem access_count_concurrent_lost_update_cex :
    (run_sched "d1" [0, 1, 0, 1]
        (register_document [] "d1" "Doc" [] "" [] "t0")
        [IncPC.toRead, IncPC.toRead]).2 = [IncPC.done, IncPC.done] ∧
    (lookup' (run_sched "d1" [0, 1, 0, 1]
        (register_document [] "d1" "Doc" [] "" [] "t0")
        [IncPC.toRead, IncPC.toRead]).1 "d1").map DocInfo.access_count = some 1 ∧
    (1 : Nat) ≠ 2 := by
  refine ⟨by decide, by decide, by decide⟩

/-- Claim C5 (amended): `access_count` is 0 at registration, each sequential
`get_document_info` increments it by exactly one — T sequential calls leave
it at T — and no `get_document_info` call ever decreases any document's
count.  The unsynchronized increment is however not atomic, so concurrent
callers can lose updates (see the counterexample). -/
theorem access_count_sequential_spec (reg : Registry)
    (doc_id title content_preview created_at : String)
    (file_paths metadata : List (String × String)) (T : Nat) :
    ((lookup' (register_document reg doc_id title file_paths content_preview metadata
        created_at) doc_id).map DocInfo.access_count = some 0) ∧
    ((lookup' (get_n doc_id T (register_document reg doc_id title file_paths content_preview
        metadata created_at)) doc_id).map DocInfo.access_count = some T) ∧
    (∀ (r : Registry) (i j : String) (c : Nat),
        (lookup' r i).map DocInfo.access_count = some c →
        ∃ c', (lookup' (get_document_info r j).1 i).map DocInfo.access_count = some c' ∧
          c ≤ c') := by
  have hreg := lookup'_dict_set_self reg doc_id
    { title := title
      file_paths := file_paths
      content_preview := content_preview
      created_at := created_at
      metadata := metadata
      access_count := 0 }
  refine ⟨?_, ?_, get_document_info_access_mono⟩
  · unfold register_document
    rw [hreg]
    rfl
  · have := get_n_access doc_id T
      (register_document reg doc_id title file_paths content_preview metadata created_at)
      { title := title
        file_paths := file_paths
        content_preview := content_preview
        created_at := created_at
        metadata := metadata
        access_count := 0 }
      (by unfold register_document; exact hreg)
    simpa using this

/-- Claim C5 witness: the amended statement evaluated on an empty registry,
a concrete document and three sequential gets. -/
theorem access_count_sequential_spec_witness :
    ((lookup' (register_document [] "d7" "Doc" [] "" [] "t0") "d7").map
        DocInfo.access_count = some 0) ∧
    ((lookup' (get_n "d7" 3 (register_document [] "d7" "Doc" [] "" [] "t0")) "d7").map
        DocInfo.access_count = some 3) ∧
    (∀ (r : Registry) (i j : String) (c : Nat),
        (lookup' r i).map DocInfo.access_count = some c →
        ∃ c', (lookup' (get_document_info r j).1 i).map DocInfo.access_count = some c' ∧
          c ≤ c') :=
  access_count_sequential_spec [] "d7" "Doc" "" "t0" [] [] 3

/-- Claim C8 counterexample: the coordinator registers the Word rendering
under the key "Word", but `get_download_link` looks up
`format_type.upper() = "WORD"`, so the round trip returns `None` even though
the stored mapping holds the path. -/
theorem get_download_link_mixed_case_cex :
    ((get_download_link (register_document [] "d1" "Doc" [("Word", "/tmp/Doc.docx")] "" [] "t0")
        "d1" "Word").2 = none) ∧
    ((lookup' (register_document [] "d1" "Doc" [("Word", "/tmp/Doc.docx")] "" [] "t0") "d1").map
        (fun info => lookup' info.file_paths "Word") = some (some "/tmp/Doc.docx")) := by
  refine ⟨by decide, by decide⟩

/-- Claim C8 (amended): `get_download_link(doc_id, f)` returns the stored
path under the key `f.upper()` when the document exists (and `None`
otherwise); the register/download round trip therefore holds exactly for
format keys that are their own uppercasing, such as "PDF" and "HTML", and
fails for the mixed-case keys "Word", "Markdown" and "LaTeX" that the
coordinator stores. -/
theorem get_download_link_upper_lookup (reg : Registry) (doc_id format_type : String)
    (info : DocInfo) (h : lookup' reg doc_id = some info) :
    ((get_download_link reg doc_id format_type).2 =
      lookup' info.file_paths (pyUpper format_type)) ∧
    (∀ p, pyUpper format_type = format_type →
      lookup' info.file_paths format_type = some p →
      (get_download_link reg doc_id format_type).2 = some p) := by
  have hmain : (get_download_link reg doc_id format_type).2 =
      lookup' info.file_paths (pyUpper format_type) := by
    unfold get_download_link
    rw [get_document_info_known reg doc_id info h]
  refine ⟨hmain, fun p hupper hp => ?_⟩
  rw [hmain, hupper, hp]

/-- Claim C8 witness: the amended lookup law evaluated on a document stored
with the all-uppercase key "PDF". -/
theorem get_download_link_upper_lookup_witness :
    (lookup' (register_document [] "d1" "Doc" [("PDF", "/tmp/Doc.pdf")] "" [] "t0") "d1" =
      some { title := "Doc"
             file_paths := [("PDF", "/tmp/Doc.pdf")]
             content_preview := ""
             created_at := "t0"
             metadata := []
             access_count := 0 }) ∧
    (((get_download_link (register_document [] "d1" "Doc" [("PDF", "/tmp/Doc.pdf")] "" [] "t0")
        "d1" "PDF").2 =
      lookup' [("PDF", "/tmp/Doc.pdf")] (pyUpper "PDF")) ∧
    (∀ p, pyUpper "PDF" = "PDF" →
      lookup' [("PDF", "/tmp/Doc.pdf")] "PDF" = some p →
      (get_download_link (register_document [] "d1" "Doc" [("PDF", "/tmp/Doc.pdf")] "" [] "t0")
        "d1" "PDF").2 = some p)) :=
  ⟨by decide,
   get_download_link_upper_lookup
     (register_document [] "d1" "Doc" [("PDF", "/tmp/Doc.pdf")] "" [] "t0") "d1" "PDF"
     { title := "Doc"
       file_paths := [("PDF", "/tmp/Doc.pdf")]
       content_preview := ""
       created_at := "t0"
       metadata := []
       access_count := 0 }
     (by decide)⟩

/-! ## Generation Coordinator theorems (C1, C2, C3) -/

theorem generate_format_file_name (render : String → Except String String) (fmt : String) :
    (generate_format_file render fmt).fmt_name = fmt_display_name fmt := by
  unfold generate_format_file
  cases render fmt <;> rfl

theorem fmt_display_name_inj {f g : String} (hf : f ∈ format_generators)
    (hg : g ∈ format_generators) (h : fmt_display_name f = fmt_display_name g) : f = g := by
  fin_cases hf <;> fin_cases hg <;> first | rfl | (exfalso; revert h; decide)

theorem collect_loop_status (tasks : List (String × RenderOutcome)) :
    ∀ (outs : List (String × String)) (stats : List String),
      (collect_loop tasks outs stats).2 = stats ++ tasks.map status_of := by
  induction tasks with
  | nil => intro outs stats; simp [collect_loop]
  | cons hd tl ih =>
      intro outs stats
      obtain ⟨fmt, o⟩ := hd
      cases hp : o.path with
      | none =>
          simp only [collect_loop, hp]
          rw [ih]
          simp [status_of, hp]
      | some p =>
          by_cases hpe : p = ""
          · simp only [collect_loop, hp, if_pos hpe]
            rw [ih]
            simp [status_of, hp, hpe]
          · simp only [collect_loop, hp, if_neg hpe]
            rw [ih]
            simp [status_of, hp, hpe]

theorem collect_loop_outputs (tasks : List (String × RenderOutcome)) :
    ∀ (outs : List (String × String)) (stats : List String),
      (∀ t ∈ tasks, lookup' outs t.2.fmt_name = none) →
      (tasks.map (fun t => t.2.fmt_name)).Nodup →
      (collect_loop tasks outs stats).1 = outs ++ tasks.filterMap succ_entry := by
  induction tasks with
  | nil => intro outs stats _ _; simp [collect_loop]
  | cons hd tl ih =>
      intro outs stats hdisj hnd
      obtain ⟨fmt, o⟩ := hd
      simp only [List.map_cons, List.nodup_cons] at hnd
      have hd0 : lookup' outs o.fmt_name = none := hdisj (fmt, o) (by simp)
      cases hp : o.path with
      | none =>
          simp only [collect_loop, hp, List.filterMap_cons, succ_entry]
          exact ih outs _ (fun t ht => hdisj t (List.mem_cons_of_mem _ ht)) hnd.2
      | some p =>
          by_cases hpe : p = ""
          · simp only [collect_loop, hp, List.filterMap_cons, succ_entry, if_pos hpe]
            exact ih outs _ (fun t ht => hdisj t (List.mem_cons_of_mem _ ht)) hnd.2
          · simp only [collect_loop, hp, List.filterMap_cons, succ_entry, if_neg hpe]
            have hset : dict_set outs o.fmt_name p = outs ++ [(o.fmt_name, p)] :=
              dict_set_of_lookup_none outs o.fmt_name p hd0
            have hdisj' : ∀ t ∈ tl, lookup' (outs ++ [(o.fmt_name, p)]) t.2.fmt_name = none := by
              intro t ht
              have hne : t.2.fmt_name ≠ o.fmt_name := by
                intro hEq
                exact hnd.1 (hEq ▸ List.mem_map.mpr ⟨t, ht, rfl⟩)
              rw [lookup'_append_of_none _ _ _ (hdisj t (List.mem_cons_of_mem _ ht))]
              simp [lookup', hne]
            rw [hset, ih _ _ hdisj' hnd.2]
            simp

theorem run_generation_components (tb ch : Bool) (formats : List String)
    (render : String → Except String String) :
    ((run_generation tb ch formats render).results =
      (formats.filter (fun f => decide (f ∈ format_generators))).map
        (fun fmt => (fmt, generate_format_file render fmt))) ∧
    ((run_generation tb ch formats render).outputs =
      (collect_loop ((formats.filter (fun f => decide (f ∈ format_generators))).map
        (fun fmt => (fmt, generate_format_file render fmt))) [] []).1) ∧
    ((run_generation tb ch formats render).status_updates =
      (collect_loop ((formats.filter (fun f => decide (f ∈ format_generators))).map
        (fun fmt => (fmt, generate_format_file render fmt))) [] []).2) ∧
    ((run_generation tb ch formats render).registered =
      some (run_generation tb ch formats render).outputs) :=
  ⟨rfl, rfl, rfl, rfl⟩

theorem generate_eq_run (mgr : OptimizationManager) (ram : ℚ) (tb ch : Bool)
    (formats : List String) (render : String → Except String String)
    (h : ¬ (check_memory_health mgr ram).2.status = Tier.CRITICAL) :
    generate_document_optimized mgr ram tb ch formats render =
      run_generation
        (if (check_memory_health mgr ram).2.status = Tier.WARNING then false else tb)
        (if (check_memory_health mgr ram).2.status = Tier.WARNING then false else ch)
        formats render := by
  unfold generate_document_optimized
  by_cases hw : (check_memory_health mgr ram).2.status = Tier.WARNING <;> simp [hw, h]

theorem generate_components (mgr : OptimizationManager) (ram : ℚ) (tb ch : Bool)
    (formats : List String) (render : String → Except String String)
    (h : ¬ (check_memory_health mgr ram).2.status = Tier.CRITICAL) :
    ((generate_document_optimized mgr ram tb ch formats render).results =
      (formats.filter (fun f => decide (f ∈ format_generators))).map
        (fun fmt => (fmt, generate_format_file render fmt))) ∧
    ((generate_document_optimized mgr ram tb ch formats render).outputs =
      (collect_loop ((formats.filter (fun f => decide (f ∈ format_generators))).map
        (fun fmt => (fmt, generate_format_file render fmt))) [] []).1) ∧
    ((generate_document_optimized mgr ram tb ch formats render).status_updates =
      (collect_loop ((formats.filter (fun f => decide (f ∈ format_generators))).map
        (fun fmt => (fmt, generate_format_file render fmt))) [] []).2) ∧
    ((generate_document_optimized mgr ram tb ch formats render).registered =
      some (generate_document_optimized mgr ram tb ch formats render).outputs) := by
  rw [generate_eq_run mgr ram tb ch formats render h]
  exact run_generation_components _ _ formats render

theorem tasks_names_nodup (formats : List String) (render : String → Except String String)
    (hnd : formats.Nodup) :
    (((formats.filter (fun f => decide (f ∈ format_generators))).map
        (fun fmt => (fmt, generate_format_file render fmt))).map
      (fun t => t.2.fmt_name)).Nodup := by
  rw [List.map_map]
  have heq : ((fun t : String × RenderOutcome => t.2.fmt_name) ∘
      (fun fmt => (fmt, generate_format_file render fmt))) = fmt_display_name := by
    funext fmt
    exact generate_format_file_name render fmt
  rw [heq]
  refine List.Nodup.map_on ?_ (hnd.filter _)
  intro x hx y hy hxy
  exact fmt_display_name_inj
    (by simpa using (List.mem_filter.mp hx).2)
    (by simpa using (List.mem_filter.mp hy).2) hxy

theorem generate_format_file_congr {render render' : String → Except String String}
    {f : String} (h : render' f = render f) :
    generate_format_file render' f = generate_format_file render f := by
  unfold generate_format_file
  rw [h]

theorem generate_format_file_of_error {render : String → Except String String}
    {f e : String} (h : render f = Except.error e) :
    generate_format_file render f =
      { fmt_name := fmt_display_name f
        path := none
        error := some (fmt_display_name f ++ " generation failed: " ++ e.take 50) } := by
  unfold generate_format_file
  rw [h]

/-- Claim C2: if the health monitor classifies memory as CRITICAL at
admission, `generate_document_optimized` refuses the whole request (the
ResourceExhausted early return), invokes no renderer, registers no artifact
and produces no partial outputs or status lines. -/
theorem generate_critical_admission_refusal (mgr : OptimizationManager) (ram : ℚ)
    (tb ch : Bool) (formats : List String) (render : String → Except String String)
    (h : (check_memory_health mgr ram).2.status = Tier.CRITICAL) :
    generate_document_optimized mgr ram tb ch formats render =
      { critical := true
        include_tables := tb
        include_charts := ch
        results := []
        outputs := []
        status_updates := []
        registered := none } := by
  unfold generate_document_optimized
  simp [h]

/-- Claim C2 witness: a 95 percent memory reading is classified CRITICAL and
the request is refused with no work done. -/
theorem generate_critical_admission_refusal_witness :
    ((check_memory_health optimization_manager 95).2.status = Tier.CRITICAL) ∧
    (generate_document_optimized optimization_manager 95 true true ["pdf"]
        (fun _ => Except.ok "/tmp/out.pdf") =
      { critical := true
        include_tables := true
        include_charts := true
        results := []
        outputs := []
        status_updates := []
        registered := none }) :=
  ⟨by decide,
   generate_critical_admission_refusal optimization_manager 95 true true ["pdf"]
     (fun _ => Except.ok "/tmp/out.pdf") (by decide)⟩

/-- Claim C3 counterexample: an admitted request (HEALTHY at 50 percent) for
the two formats ["pdf", "unknown"] yields an outcome list with a single
entry — the fan-out loop silently skips any requested format without a
dispatch entry, so the list does not have one entry per requested format. -/
theorem generate_outcomes_drop_unknown_format_cex :
    ((check_memory_health optimization_manager 50).2.status ≠ Tier.CRITICAL) ∧
    ¬ ((generate_document_optimized optimization_manager 50 true true ["pdf", "unknown"]
        (fun _ => Except.ok "/tmp/out.pdf")).results.length = 2) :=
  ⟨by decide, by decide⟩

/-- Claim C3 (amended): for every admitted request, the outcome list has
exactly one entry per requested format that has a dispatch entry
(pdf, docx, md, html, latex), in request order — formats outside the
dispatch dict are silently dropped; in particular when every requested
format is supported the list pairs up with the request list itself.  The
status lines are derived from the outcomes in the same order (the loop
collects `task.result()` in submission order, so completion order of the
pool's threads cannot reorder them). -/
theorem generate_outcomes_per_supported_format (mgr : OptimizationManager) (ram : ℚ)
    (tb ch : Bool) (formats : List String) (render : String → Except String String)
    (h : ¬ (check_memory_health mgr ram).2.status = Tier.CRITICAL) :
    ((generate_document_optimized mgr ram tb ch formats render).results.map Prod.fst =
      formats.filter (fun f => decide (f ∈ format_generators))) ∧
    ((generate_document_optimized mgr ram tb ch formats render).status_updates =
      (generate_document_optimized mgr ram tb ch formats render).results.map status_of) ∧
    ((∀ f ∈ formats, f ∈ format_generators) →
      (generate_document_optimized mgr ram tb ch formats render).results.map Prod.fst =
        formats) := by
  obtain ⟨hres, houts, hstat, hreg⟩ := generate_components mgr ram tb ch formats render h
  have hfst : (generate_document_optimized mgr ram tb ch formats render).results.map Prod.fst =
      formats.filter (fun f => decide (f ∈ format_generators)) := by
    rw [hres, List.map_map]
    have hid : (Prod.fst ∘ fun fmt => (fmt, generate_format_file render fmt)) = id := rfl
    rw [hid, List.map_id]
  refine ⟨hfst, ?_, ?_⟩
  · rw [hstat, hres, collect_loop_status]
    simp
  · intro hall
    rw [hfst]
    apply List.filter_eq_self.mpr
    intro a ha
    simpa using hall a ha

/-- Claim C3 witness: the amended outcome-list law on an admitted request for
the supported formats pdf and docx. -/
theorem generate_outcomes_per_supported_format_witness :
    (¬ (check_memory_health optimization_manager 50).2.status = Tier.CRITICAL) ∧
    (((generate_document_optimized optimization_manager 50 true true ["pdf", "docx"]
        (fun _ => Except.ok "/tmp/out.pdf")).results.map Prod.fst =
      ["pdf", "docx"].filter (fun f => decide (f ∈ format_generators))) ∧
    ((generate_document_optimized optimization_manager 50 true true ["pdf", "docx"]
        (fun _ => Except.ok "/tmp/out.pdf")).status_updates =
      (generate_document_optimized optimization_manager 50 true true ["pdf", "docx"]
        (fun _ => Except.ok "/tmp/out.pdf")).results.map status_of) ∧
    ((∀ f ∈ ["pdf", "docx"], f ∈ format_generators) →
      (generate_document_optimized optimization_manager 50 true true ["pdf", "docx"]
        (fun _ => Except.ok "/tmp/out.pdf")).results.map Prod.fst = ["pdf", "docx"])) :=
  ⟨by decide,
   generate_outcomes_per_supported_format optimization_manager 50 true true ["pdf", "docx"]
     (fun _ => Except.ok "/tmp/out.pdf") (by decide)⟩

/-- Claim C1: for an admitted request, if the renderer of one requested
format fails by raising (caught inside its wrapper), every other requested
format's renderer still runs to completion, the failing format's outcome
carries an error description and no path, every other outcome equals what it
would be without the failure, and the registered artifact's formats mapping
contains exactly the successful formats and not the failed one. -/
theorem generate_isolates_render_failures (mgr : OptimizationManager) (ram : ℚ)
    (tb ch : Bool) (formats : List String)
    (render render' : String → Except String String) (f0 e : String)
    (hadm : ¬ (check_memory_health mgr ram).2.status = Tier.CRITICAL)
    (hnd : formats.Nodup)
    (hf0 : f0 ∈ format_generators)
    (hfail : render' f0 = Except.error e)
    (hagree : ∀ f, f ≠ f0 → render' f = render f) :
    ((generate_document_optimized mgr ram tb ch formats render').results.map Prod.fst =
      (generate_document_optimized mgr ram tb ch formats render).results.map Prod.fst) ∧
    (∀ r, (f0, r) ∈ (generate_document_optimized mgr ram tb ch formats render').results →
      r.path = none ∧
      r.error = some (fmt_display_name f0 ++ " generation failed: " ++ e.take 50)) ∧
    (∀ f r, f ≠ f0 →
      ((f, r) ∈ (generate_document_optimized mgr ram tb ch formats render').results ↔
        (f, r) ∈ (generate_document_optimized mgr ram tb ch formats render).results)) ∧
    ((generate_document_optimized mgr ram tb ch formats render').registered =
      some (generate_document_optimized mgr ram tb ch formats render').outputs) ∧
    ((generate_document_optimized mgr ram tb ch formats render').outputs =
      (generate_document_optimized mgr ram tb ch formats render').results.filterMap
        succ_entry) ∧
    (fmt_display_name f0 ∉
      (generate_document_optimized mgr ram tb ch formats render').outputs.map Prod.fst) := by
  obtain ⟨hres', houts', hstat', hreg'⟩ := generate_components mgr ram tb ch formats render' hadm
  obtain ⟨hres, houts, hstat, hreg⟩ := generate_components mgr ram tb ch formats render hadm
  have h5 : (generate_document_optimized mgr ram tb ch formats render').outputs =
      (generate_document_optimized mgr ram tb ch formats render').results.filterMap
        succ_entry := by
    rw [houts', hres',
      collect_loop_outputs _ [] [] (fun t _ => rfl) (tasks_names_nodup formats render' hnd)]
    simp
  refine ⟨?_, ?_, ?_, hreg', h5, ?_⟩
  · rw [hres', hres, List.map_map, List.map_map]
    rfl
  · intro r hr
    rw [hres'] at hr
    obtain ⟨fmt, hfmt, heq⟩ := List.mem_map.mp hr
    have h1 : fmt = f0 := congrArg Prod.fst heq
    subst h1
    have h2 : generate_format_file render' fmt = r := congrArg Prod.snd heq
    rw [← h2, generate_format_file_of_error hfail]
    exact ⟨rfl, rfl⟩
  · intro f r hne
    rw [hres', hres]
    simp only [List.mem_map]
    constructor
    · rintro ⟨fmt, hfmt, heq⟩
      have h1 : fmt = f := congrArg Prod.fst heq
      subst h1
      exact ⟨fmt, hfmt, by rw [generate_format_file_congr (hagree fmt hne)] at heq; exact heq⟩
    · rintro ⟨fmt, hfmt, heq⟩
      have h1 : fmt = f := congrArg Prod.fst heq
      subst h1
      exact ⟨fmt, hfmt, by rw [generate_format_file_congr (hagree fmt hne)]; exact heq⟩
  · intro hmem
    rw [h5, hres'] at hmem
    obtain ⟨⟨n, p⟩, hnp, hfst⟩ := List.mem_map.mp hmem
    obtain ⟨t, ht, hsucc⟩ := List.mem_filterMap.mp hnp
    obtain ⟨fmt, hfmtL, hteq⟩ := List.mem_map.mp ht
    subst hteq
    simp only [succ_entry] at hsucc
    cases hpath : (generate_format_file render' fmt).path with
    | none => rw [hpath] at hsucc; simp at hsucc
    | some q =>
        rw [hpath] at hsucc
        by_cases hq : q = ""
        · simp [hq] at hsucc
        · simp [hq] at hsucc
          have hn : (generate_format_file render' fmt).fmt_name = n := hsucc.1
          have hdisp : fmt_display_name fmt = fmt_display_name f0 := by
            rw [← generate_format_file_name render' fmt, hn]
            simpa using hfst
          have hfmtG : fmt ∈ format_generators := by
            simpa using (List.mem_filter.mp hfmtL).2
          have : fmt = f0 := fmt_display_name_inj hfmtG hf0 hdisp
          subst this
          rw [generate_format_file_of_error hfail] at hpath
          simp at hpath

/-- Claim C1 witness: formats pdf, docx, md with the docx renderer failing;
the failure is isolated, the docx outcome carries the error, and the
registered mapping omits Word. -/
theorem generate_isolates_render_failures_witness :
    (¬ (check_memory_health optimization_manager 50).2.status = Tier.CRITICAL) ∧
    ((["pdf", "docx", "md"] : List String).Nodup) ∧
    ("docx" ∈ format_generators) ∧
    ((fun f => if f = "docx" then (Except.error "boom" : Except String String)
        else Except.ok "/tmp/out.bin") "docx" = Except.error "boom") ∧
    (∀ f, f ≠ "docx" →
      (fun f => if f = "docx" then (Except.error "boom" : Except String String)
        else Except.ok "/tmp/out.bin") f =
      (fun _ => (Except.ok "/tmp/out.bin" : Except String String)) f) ∧
    (((generate_document_optimized optimization_manager 50 true true ["pdf", "docx", "md"]
        (fun f => if f = "docx" then (Except.error "boom" : Except String String)
          else Except.ok "/tmp/out.bin")).results.map Prod.fst =
      (generate_document_optimized optimization_manager 50 true true ["pdf", "docx", "md"]
        (fun _ => (Except.ok "/tmp/out.bin" : Except String String))).results.map Prod.fst) ∧
    (∀ r, ("docx", r) ∈ (generate_document_optimized optimization_manager 50 true true
        ["pdf", "docx", "md"]
        (fun f => if f = "docx" then (Except.error "boom" : Except String String)
          else Except.ok "/tmp/out.bin")).results →
      r.path = none ∧
      r.error = some (fmt_display_name "docx" ++ " generation failed: " ++
        String.take "boom" 50)) ∧
    (∀ f r, f ≠ "docx" →
      ((f, r) ∈ (generate_document_optimized optimization_manager 50 true true
          ["pdf", "docx", "md"]
          (fun f => if f = "docx" then (Except.error "boom" : Except String String)
            else Except.ok "/tmp/out.bin")).results ↔
        (f, r) ∈ (generate_document_optimized optimization_manager 50 true true
          ["pdf", "docx", "md"]
          (fun _ => (Except.ok "/tmp/out.bin" : Except String String))).results)) ∧
    ((generate_document_optimized optimization_manager 50 true true ["pdf", "docx", "md"]
        (fun f => if f = "docx" then (Except.error "boom" : Except String String)
          else Except.ok "/tmp/out.bin")).registered =
      some (generate_document_optimized optimization_manager 50 true true ["pdf", "docx", "md"]
        (fun f => if f = "docx" then (Except.error "boom" : Except String String)
          else Except.ok "/tmp/out.bin")).outputs) ∧
    ((generate_document_optimized optimization_manager 50 true true ["pdf", "docx", "md"]
        (fun f => if f = "docx" then (Except.error "boom" : Except String String)
          else Except.ok "/tmp/out.bin")).outputs =
      (generate_document_optimized optimization_manager 50 true true ["pdf", "docx", "md"]
        (fun f => if f = "docx" then (Except.error "boom" : Except String String)
          else Except.ok "/tmp/out.bin")).results.filterMap succ_entry) ∧
    (fmt_display_name "docx" ∉
      (generate_document_optimized optimization_manager 50 true true ["pdf", "docx", "md"]
        (fun f => if f = "docx" then (Except.error "boom" : Except String String)
          else Except.ok "/tmp/out.bin")).outputs.map Prod.fst)) :=
  ⟨by decide, by decide, by decide, by simp, fun f hf => by simp [hf],
   generate_isolates_render_failures optimization_manager 50 true true ["pdf", "docx", "md"]
     (fun _ => (Except.ok "/tmp/out.bin" : Except String String))
     (fun f => if f = "docx" then (Except.error "boom" : Except String String)
       else Except.ok "/tmp/out.bin")
     "docx" "boom" (by decide) (by decide) (by decide) (by simp)
     (fun f hf => by simp [hf])⟩

/-! ## Lifecycle Manager theorems (C6, C9, C10) -/

/-- Claim C10: `upload_file` rejects every source file strictly larger than
50 MB with a failure result and an error message, leaving the tracking dict
and the scratch directory untouched (the copy and the tracking insert are
never reached). -/
theorem upload_file_rejects_oversize (s : FMState) (source_path original_filename : String)
    (file_size : Nat) (file_id dest_path file_type : String) (now : Int)
    (h : 50 * 1024 * 1024 < file_size) :
    upload_file s true source_path original_filename file_size file_id dest_path file_type now =
      ((false, "File too large"), s) := by
  unfold upload_file
  simp [h]

/-- Claim C10 witness: a 50 MB + 1 byte file is rejected and the state is
unchanged. -/
theorem upload_file_rejects_oversize_witness :
    (50 * 1024 * 1024 < 52428801) ∧
    (upload_file { tracked_files := [], disk := [] } true "/uploads/big.pdf" "big.pdf"
        52428801 "file_1" "/tmp/campus_me_uploads/file_1.pdf" ".pdf" 0 =
      ((false, "File too large"), { tracked_files := [], disk := [] })) :=
  ⟨by decide,
   upload_file_rejects_oversize { tracked_files := [], disk := [] } "/uploads/big.pdf"
     "big.pdf" 52428801 "file_1" "/tmp/campus_me_uploads/file_1.pdf" ".pdf" 0 (by decide)⟩

/-- Claim C9 (code defect): `mark_processed` with `delete_after <= 0` on a
tracked file calls `delete_file` while `self.lock` — a non-reentrant
`threading.Lock` — is still held by the `with self.lock:` block of
`mark_processed` itself; the re-acquisition blocks forever (modelled as
`none`), so the call never terminates, never deletes the file and never
returns True, contradicting the docstring ("0 = delete immediately",
returns success status). -/
theorem mark_processed_immediate_deadlock (s : FMState) (file_id : String)
    (delete_after now : Int) (info : FileInfo)
    (hmem : lookup' s.tracked_files file_id = some info)
    (hneg : delete_after ≤ 0) :
    mark_processed LockState.free s file_id delete_after now = none := by
  unfold mark_processed
  rw [hmem]
  simp [hneg, delete_file]

/-- Claim C9 witness: the deadlock evaluated on a concrete manager with one
tracked file and the default `delete_after = 0`. -/
theorem mark_processed_immediate_deadlock_witness :
    (lookup'
        [("file_1",
          { source := "/uploads/a.pdf"
            destination := "/tmp/campus_me_uploads/file_1.pdf"
            original_name := "a.pdf"
            file_size := 10
            upload_time := 0
            file_type := ".pdf"
            status := "uploaded"
            processed_time := none
            delete_at := none : FileInfo })] "file_1" =
      some
        { source := "/uploads/a.pdf"
          destination := "/tmp/campus_me_uploads/file_1.pdf"
          original_name := "a.pdf"
          file_size := 10
          upload_time := 0
          file_type := ".pdf"
          status := "uploaded"
          processed_time := none
          delete_at := none }) ∧
    ((0 : Int) ≤ 0) ∧
    (mark_processed LockState.free
        { tracked_files :=
            [("file_1",
              { source := "/uploads/a.pdf"
                destination := "/tmp/campus_me_uploads/file_1.pdf"
                original_name := "a.pdf"
                file_size := 10
                upload_time := 0
                file_type := ".pdf"
                status := "uploaded"
                processed_time := none
                delete_at := none })]
          disk := ["/tmp/campus_me_uploads/file_1.pdf"] } "file_1" 0 5 = none) :=
  ⟨by decide, by decide,
   mark_processed_immediate_deadlock
     { tracked_files :=
         [("file_1",
           { source := "/uploads/a.pdf"
             destination := "/tmp/campus_me_uploads/file_1.pdf"
             original_name := "a.pdf"
             file_size := 10
             upload_time := 0
             file_type := ".pdf"
             status := "uploaded"
             processed_time := none
             delete_at := none })]
       disk := ["/tmp/campus_me_uploads/file_1.pdf"] } "file_1" 0 5
     { source := "/uploads/a.pdf"
       destination := "/tmp/campus_me_uploads/file_1.pdf"
       original_name := "a.pdf"
       file_size := 10
       upload_time := 0
       file_type := ".pdf"
       status := "uploaded"
       processed_time := none
       delete_at := none }
     (by decide) (by decide)⟩

theorem mem_expired_chunk (max_age now : Int) (fid file_id : String) (info : FileInfo) :
    (file_id ∈ ((if max_age < now - info.upload_time then [fid] else []) ++
      (match info.delete_at with
       | some d => if d ≤ now then [fid] else []
       | none => []))) ↔
    (file_id = fid ∧
      (max_age < now - info.upload_time ∨ ∃ d, info.delete_at = some d ∧ d ≤ now)) := by
  cases hda : info.delete_at with
  | none => by_cases hc : max_age < now - info.upload_time <;> simp [hc]
  | some d =>
      by_cases hc1 : max_age < now - info.upload_time <;> by_cases hc2 : d ≤ now <;>
        simp [hc1, hc2]

theorem expired_list_subset_keys (max_age now : Int) (l : List (String × FileInfo))
    (x : String) (hx : x ∈ expired_list max_age now l) : x ∈ l.map Prod.fst := by
  induction l with
  | nil => simp [expired_list] at hx
  | cons hd tl ih =>
      obtain ⟨fid, info⟩ := hd
      simp only [expired_list, List.mem_append] at hx
      rcases hx with hx | hx
      · have := (mem_expired_chunk max_age now fid x info).mp (List.mem_append.mpr hx)
        simp [this.1]
      · simp [ih hx]

theorem expired_list_mem_iff (max_age now : Int) (l : List (String × FileInfo))
    (file_id : String) (info : FileInfo)
    (hnd : (l.map Prod.fst).Nodup) (hmem : lookup' l file_id = some info) :
    (file_id ∈ expired_list max_age now l ↔
      (max_age < now - info.upload_time ∨ ∃ d, info.delete_at = some d ∧ d ≤ now)) := by
  induction l with
  | nil => simp [lookup'] at hmem
  | cons hd tl ih =>
      obtain ⟨fid, i0⟩ := hd
      simp only [List.map_cons, List.nodup_cons] at hnd
      simp only [lookup'] at hmem
      by_cases he : file_id = fid
      · rw [if_pos he] at hmem
        have hinfo : i0 = info := Option.some.inj hmem
        subst hinfo
        have hnotail : file_id ∉ expired_list max_age now tl := by
          intro hx
          exact hnd.1 (he ▸ expired_list_subset_keys max_age now tl file_id hx)
        simp only [expired_list, List.mem_append]
        constructor
        · rintro (hx | hx)
          · exact ((mem_expired_chunk max_age now fid file_id i0).mp
              (List.mem_append.mpr hx)).2
          · exact absurd hx hnotail
        · intro hc
          have := (mem_expired_chunk max_age now fid file_id i0).mpr ⟨he, hc⟩
          exact Or.inl (List.mem_append.mp this)
      · rw [if_neg he] at hmem
        simp only [expired_list, List.mem_append]
        constructor
        · rintro (hx | hx)
          · exact absurd ((mem_expired_chunk max_age now fid file_id i0).mp
              (List.mem_append.mpr hx)).1 he
          · exact (ih hnd.2 hmem).mp hx
        · intro hc
          exact Or.inr ((ih hnd.2 hmem).mpr hc)

theorem delete_file_internal_lookup_ne (s : FMState) (x k : String) (h : k ≠ x) :
    lookup' (delete_file_internal s x).2.tracked_files k = lookup' s.tracked_files k := by
  unfold delete_file_internal
  cases hx : lookup' s.tracked_files x with
  | none => rfl
  | some info => simp [lookup'_dict_remove_ne s.tracked_files x k h]

theorem delete_file_internal_nodup (s : FMState) (x : String)
    (hnd : (s.tracked_files.map Prod.fst).Nodup) :
    ((delete_file_internal s x).2.tracked_files.map Prod.fst).Nodup := by
  unfold delete_file_internal
  cases hx : lookup' s.tracked_files x with
  | none => exact hnd
  | some info => simpa using nodup_keys_dict_remove s.tracked_files x hnd

theorem delete_file_internal_lookup_none (s : FMState) (x k : String)
    (h : lookup' s.tracked_files k = none) :
    lookup' (delete_file_internal s x).2.tracked_files k = none := by
  unfold delete_file_internal
  cases hx : lookup' s.tracked_files x with
  | none => exact h
  | some info => simpa using lookup'_none_dict_remove s.tracked_files x k h

theorem delete_file_internal_disk_subset (s : FMState) (x : String) :
    (delete_file_internal s x).2.disk ⊆ s.disk := by
  unfold delete_file_internal
  cases hx : lookup' s.tracked_files x with
  | none => exact fun p hp => hp
  | some info => simpa using List.filter_subset _ s.disk

theorem delete_expired_lookup_not_mem (ids : List String) :
    ∀ (cnt : Nat) (s : FMState) (k : String), k ∉ ids →
      lookup' (delete_expired ids cnt s).2.tracked_files k = lookup' s.tracked_files k := by
  induction ids with
  | nil => intro cnt s k _; rfl
  | cons x rest ih =>
      intro cnt s k hk
      have hkx : k ≠ x := fun h => hk (h ▸ List.mem_cons_self x rest)
      have hkr : k ∉ rest := fun h => hk (List.mem_cons_of_mem x h)
      simp only [delete_expired]
      rw [ih _ _ _ hkr, delete_file_internal_lookup_ne s x k hkx]

theorem delete_expired_lookup_none (ids : List String) :
    ∀ (cnt : Nat) (s : FMState) (k : String), lookup' s.tracked_files k = none →
      lookup' (delete_expired ids cnt s).2.tracked_files k = none := by
  induction ids with
  | nil => intro cnt s k h; exact h
  | cons x rest ih =>
      intro cnt s k h
      simp only [delete_expired]
      exact ih _ _ _ (delete_file_internal_lookup_none s x k h)

theorem delete_expired_removes (ids : List String) :
    ∀ (cnt : Nat) (s : FMState) (k : String), k ∈ ids →
      (s.tracked_files.map Prod.fst).Nodup →
      lookup' (delete_expired ids cnt s).2.tracked_files k = none := by
  induction ids with
  | nil => intro cnt s k hk _; simp at hk
  | cons x rest ih =>
      intro cnt s k hk hnd
      simp only [delete_expired]
      by_cases hkx : k = x
      · subst hkx
        have hafter : lookup' (delete_file_internal s k).2.tracked_files k = none := by
          unfold delete_file_internal
          cases hx : lookup' s.tracked_files k with
          | none => exact hx
          | some info => simpa using lookup'_dict_remove_self s.tracked_files k hnd
        exact delete_expired_lookup_none rest _ _ _ hafter
      · have hkr : k ∈ rest := by
          rcases List.mem_cons.mp hk with h | h
          · exact absurd h hkx
          · exact h
        exact ih _ _ _ hkr (delete_file_internal_nodup s x hnd)

theorem delete_expired_disk_subset (ids : List String) :
    ∀ (cnt : Nat) (s : FMState), (delete_expired ids cnt s).2.disk ⊆ s.disk := by
  induction ids with
  | nil => intro cnt s p hp; exact hp
  | cons x rest ih =>
      intro cnt s
      simp only [delete_expired]
      exact fun p hp => delete_file_internal_disk_subset s x ((ih _ _) hp)

theorem delete_expired_disk_removed (ids : List String) :
    ∀ (cnt : Nat) (s : FMState) (k : String) (info : FileInfo), k ∈ ids →
      (s.tracked_files.map Prod.fst).Nodup →
      lookup' s.tracked_files k = some info →
      info.destination ∉ (delete_expired ids cnt s).2.disk := by
  induction ids with
  | nil => intro cnt s k info hk _ _; simp at hk
  | cons x rest ih =>
      intro cnt s k info hk hnd hmem
      simp only [delete_expired]
      by_cases hkx : k = x
      · subst hkx
        have hdisk : info.destination ∉ (delete_file_internal s k).2.disk := by
          unfold delete_file_internal
          rw [hmem]
          simp
        intro hcontra
        exact hdisk (delete_expired_disk_subset rest _ _ hcontra)
      · have hkr : k ∈ rest := by
          rcases List.mem_cons.mp hk with h | h
          · exact absurd h hkx
          · exact h
        exact ih _ _ _ _ hkr (delete_file_internal_nodup s x hnd)
          ((delete_file_internal_lookup_ne s x k hkx).trans hmem)

/-- Claim C6: a sweep at time `now` removes a tracked file — deleting its
tracking entry and its physical bytes — exactly when `now` exceeds its
upload time plus the manager's maximum age, or a deletion deadline recorded
by `mark_processed` has passed; in particular a file whose TTL is zero is
gone at the next sweep while a file with an hour of TTL survives an
immediate sweep. -/
theorem cleanup_expired_removes_iff (max_age now : Int) (s : FMState) (file_id : String)
    (info : FileInfo)
    (hnd : (s.tracked_files.map Prod.fst).Nodup)
    (hmem : lookup' s.tracked_files file_id = some info) :
    ((lookup' (cleanup_expired_files max_age now s).2.tracked_files file_id = none) ↔
      (max_age < now - info.upload_time ∨ ∃ d, info.delete_at = some d ∧ d ≤ now)) ∧
    ((max_age < now - info.upload_time ∨ ∃ d, info.delete_at = some d ∧ d ≤ now) →
      info.destination ∉ (cleanup_expired_files max_age now s).2.disk) := by
  unfold cleanup_expired_files
  refine ⟨⟨?_, ?_⟩, ?_⟩
  · intro hnone
    by_contra hcond
    have hnotin : file_id ∉ expired_list max_age now s.tracked_files := fun hx =>
      hcond ((expired_list_mem_iff max_age now s.tracked_files file_id info hnd hmem).mp hx)
    rw [delete_expired_lookup_not_mem _ _ _ _ hnotin, hmem] at hnone
    cases hnone
  · intro hcond
    exact delete_expired_removes _ _ _ _
      ((expired_list_mem_iff max_age now s.tracked_files file_id info hnd hmem).mpr hcond) hnd
  · intro hcond
    exact delete_expired_disk_removed _ _ _ _ info
      ((expired_list_mem_iff max_age now s.tracked_files file_id info hnd hmem).mpr hcond)
      hnd hmem

/-- Claim C6 witness: a file tracked with `ttl = 0` (manager max age zero,
swept one second after upload) satisfies the removal condition, and a file
tracked with `ttl = 1 hour` swept immediately does not; both read off the
sweep law at concrete states. -/
theorem cleanup_expired_removes_iff_witness :
    (([("f1",
        { source := "/uploads/a.pdf"
          destination := "/tmp/campus_me_uploads/f1.pdf"
          original_name := "a.pdf"
          file_size := 10
          upload_time := 0
          file_type := ".pdf"
          status := "uploaded"
          processed_time := none
          delete_at := none : FileInfo })].map Prod.fst).Nodup) ∧
    (((lookup'
        (cleanup_expired_files 0 1
          { tracked_files :=
              [("f1",
                { source := "/uploads/a.pdf"
                  destination := "/tmp/campus_me_uploads/f1.pdf"
                  original_name := "a.pdf"
                  file_size := 10
                  upload_time := 0
                  file_type := ".pdf"
                  status := "uploaded"
                  processed_time := none
                  delete_at := none })]
            disk := ["/tmp/campus_me_uploads/f1.pdf"] }).2.tracked_files "f1" = none) ↔
      ((0 : Int) < 1 - 0 ∨ ∃ d, (none : Option Int) = some d ∧ d ≤ 1)) ∧
    (((0 : Int) < 1 - 0 ∨ ∃ d, (none : Option Int) = some d ∧ d ≤ 1) →
      "/tmp/campus_me_uploads/f1.pdf" ∉
        (cleanup_expired_files 0 1
          { tracked_files :=
              [("f1",
                { source := "/uploads/a.pdf"
                  destination := "/tmp/campus_me_uploads/f1.pdf"
                  original_name := "a.pdf"
                  file_size := 10
                  upload_time := 0
                  file_type := ".pdf"
                  status := "uploaded"
                  processed_time := none
                  delete_at := none })]
            disk := ["/tmp/campus_me_uploads/f1.pdf"] }).2.disk)) ∧
    (((lookup'
        (cleanup_expired_files 3600 0
          { tracked_files :=
              [("f2",
                { source := "/uploads/b.pdf"
                  destination := "/tmp/campus_me_uploads/f2.pdf"
                  original_name := "b.pdf"
                  file_size := 10
                  upload_time := 0
                  file_type := ".pdf"
                  status := "uploaded"
                  processed_time := none
                  delete_at := none })]
            disk := ["/tmp/campus_me_uploads/f2.pdf"] }).2.tracked_files "f2" = none) ↔
      ((3600 : Int) < 0 - 0 ∨ ∃ d, (none : Option Int) = some d ∧ d ≤ 0))) :=
  ⟨by decide,
   (cleanup_expired_removes_iff 0 1
     { tracked_files :=
         [("f1",
           { source := "/uploads/a.pdf"
             destination := "/tmp/campus_me_uploads/f1.pdf"
             original_name := "a.pdf"
             file_size := 10
             upload_time := 0
             file_type := ".pdf"
             status := "uploaded"
             processed_time := none
             delete_at := none })]
       disk := ["/tmp/campus_me_uploads/f1.pdf"] } "f1"
     { source := "/uploads/a.pdf"
       destination := "/tmp/campus_me_uploads/f1.pdf"
       original_name := "a.pdf"
       file_size := 10
       upload_time := 0
       file_type := ".pdf"
       status := "uploaded"
       processed_time := none
       delete_at := none } (by decide) (by decide)),
   (cleanup_expired_removes_iff 3600 0
     { tracked_files :=
         [("f2",
           { source := "/uploads/b.pdf"
             destination := "/tmp/campus_me_uploads/f2.pdf"
             original_name := "b.pdf"
             file_size := 10
             upload_time := 0
             file_type := ".pdf"
             status := "uploaded"
             processed_time := none
             delete_at := none })]
       disk := ["/tmp/campus_me_uploads/f2.pdf"] } "f2"
     { source := "/uploads/b.pdf"
       destination := "/tmp/campus_me_uploads/f2.pdf"
       original_name := "b.pdf"
       file_size := 10
       upload_time := 0
       file_type := ".pdf"
       status := "uploaded"
       processed_time := none
       delete_at := none } (by decide) (by decide)).1⟩
